import Mathlib

/-!
Verification of the URL-sharing bot (src/bot.py).

The bot is a single-admin URL-to-deep-link mapping service: an admin submits a
URL, the bot stores it in a SQLite table under an MD5-derived identifier and
answers with a Telegram deep link; any user following the deep link triggers a
lookup that returns the original URL and increments a click counter.

The embedding below models:
  - the SQLite table `urls` as a list of `LinkRecord` values in insertion
    order (the integer AUTOINCREMENT primary key is the list position);
  - the database functions `store_url_mapping`, `get_original_url`,
    `get_stats` as pure state-passing functions (`SELECT ... ORDER BY
    click_count DESC LIMIT 5` is modelled with a stable merge sort, matching
    SQLite returning equal keys in a stable order);
  - `generate_unique_id` with a full executable MD5 over UTF-8 bytes
    (validated against the standard MD5 test vectors); `time.time()` is
    modelled by its decimal string rendering, passed as a parameter;
  - the handlers `handle_url`, `stats_command`, `start`, `button_handler` as
    pure functions from (configuration, sender, input, store) to
    (response, store); responses are an inductive capturing which message is
    sent and the data interpolated into it;
  - Python string primitives used by the code (`str.startswith`, slicing)
    directly on code-point lists, matching Python semantics.
-/

/-- Python str.startswith: code-point-wise comparison of a literal head. -/
def startswith (s p : String) : Bool :=
  p.data.isPrefixOf s.data

/-- Python s[n:] slicing (by code points). -/
def pySliceFrom (s : String) (n : Nat) : String :=
  ⟨s.data.drop n⟩

/-- Python `x or d` for an optional string: d when x is absent or empty. -/
def pyOrStr (x : Option String) (d : String) : String :=
  match x with
  | none => d
  | some s => if s.data = [] then d else s

/-! ## The urls table -/

/-- One row of the `urls` table created by init_db (the AUTOINCREMENT id is
the position in the list; created_at is not modelled, no claim touches it). -/
structure LinkRecord where
  unique_id : String
  original_url : String
  click_count : Nat
  user_id : Int
  user_name : String
deriving DecidableEq

/-- Whether a row with this unique_id exists (the UNIQUE constraint check). -/
def hasId (db : List LinkRecord) (uid : String) : Bool :=
  db.any (fun r => r.unique_id == uid)

/-- store_url_mapping: INSERT the new row; a duplicate unique_id raises
sqlite3.IntegrityError which the function catches and only logs, so the
caller always gets back control with no error signal; on the duplicate path
the store is unchanged and the submission is dropped. -/
def store_url_mapping (db : List LinkRecord) (unique_id original_url : String)
    (user_id : Int) (user_name : String) : List LinkRecord :=
  if hasId db unique_id then db
  else db ++ [{ unique_id := unique_id, original_url := original_url,
                click_count := 0, user_id := user_id, user_name := user_name }]

/-- Effect of UPDATE urls SET click_count = click_count + 1 WHERE unique_id = uid
on one row. -/
def bumpClick (uid : String) (r : LinkRecord) : LinkRecord :=
  if r.unique_id == uid then { r with click_count := r.click_count + 1 } else r

/-- get_original_url: SELECT the row; when found, UPDATE its click_count and
return the original URL; when absent return None and leave the table alone. -/
def get_original_url (db : List LinkRecord) (unique_id : String) :
    Option String × List LinkRecord :=
  match db.find? (fun r => r.unique_id == unique_id) with
  | some r => (some r.original_url, db.map (bumpClick unique_id))
  | none => (none, db)

/-- The dictionary returned by get_stats. -/
structure Stats where
  total_urls : Nat
  total_clicks : Nat
  top_urls : List (String × Nat)
deriving DecidableEq

/-- Comparator for ORDER BY click_count DESC. -/
def clickDescLe (r1 r2 : LinkRecord) : Bool :=
  r2.click_count ≤ r1.click_count

/-- get_stats: COUNT, SUM (NULL on an empty table, turned into 0 by the
Python `or 0`), and the top-5 rows by click_count descending. -/
def get_stats (db : List LinkRecord) : Stats :=
  { total_urls := db.length
    total_clicks :=
      (if db.isEmpty then none
       else some ((db.map LinkRecord.click_count).sum)).getD 0
    top_urls :=
      ((db.mergeSort clickDescLe).map
        (fun r => (r.original_url, r.click_count))).take 5 }

/-! ## MD5 and generate_unique_id -/

/-- 2^32; MD5 word arithmetic is mod this. -/
def w32 : Nat := 4294967296

/-- Bitwise complement on 32-bit words. -/
def not32 (x : Nat) : Nat := x ^^^ 0xFFFFFFFF

/-- 32-bit left rotation. -/
def rotl32 (x s : Nat) : Nat :=
  (((x % w32) <<< s) ||| ((x % w32) >>> (32 - s))) % w32

/-- The 64 MD5 sine-derived constants. -/
def md5K : List Nat :=
  [0xd76aa478, 0xe8c7b756, 0x242070db, 0xc1bdceee,
   0xf57c0faf, 0x4787c62a, 0xa8304613, 0xfd469501,
   0x698098d8, 0x8b44f7af, 0xffff5bb1, 0x895cd7be,
   0x6b901122, 0xfd987193, 0xa679438e, 0x49b40821,
   0xf61e2562, 0xc040b340, 0x265e5a51, 0xe9b6c7aa,
   0xd62f105d, 0x02441453, 0xd8a1e681, 0xe7d3fbc8,
   0x21e1cde6, 0xc33707d6, 0xf4d50d87, 0x455a14ed,
   0xa9e3e905, 0xfcefa3f8, 0x676f02d9, 0x8d2a4c8a,
   0xfffa3942, 0x8771f681, 0x6d9d6122, 0xfde5380c,
   0xa4beea44, 0x4bdecfa9, 0xf6bb4b60, 0xbebfbc70,
   0x289b7ec6, 0xeaa127fa, 0xd4ef3085, 0x04881d05,
   0xd9d4d039, 0xe6db99e5, 0x1fa27cf8, 0xc4ac5665,
   0xf4292244, 0x432aff97, 0xab9423a7, 0xfc93a039,
   0x655b59c3, 0x8f0ccc92, 0xffeff47d, 0x85845dd1,
   0x6fa87e4f, 0xfe2ce6e0, 0xa3014314, 0x4e0811a1,
   0xf7537e82, 0xbd3af235, 0x2ad7d2bb, 0xeb86d391]

/-- The 64 MD5 per-round rotation amounts. -/
def md5S : List Nat :=
  [7, 12, 17, 22, 7, 12, 17, 22, 7, 12, 17, 22, 7, 12, 17, 22,
   5, 9, 14, 20, 5, 9, 14, 20, 5, 9, 14, 20, 5, 9, 14, 20,
   4, 11, 16, 23, 4, 11, 16, 23, 4, 11, 16, 23, 4, 11, 16, 23,
   6, 10, 15, 21, 6, 10, 15, 21, 6, 10, 15, 21, 6, 10, 15, 21]

/-- A 32-bit word as four little-endian bytes. -/
def toLE4 (x : Nat) : List Nat :=
  [x % 256, x / 256 % 256, x / 65536 % 256, x / 16777216 % 256]

/-- A 64-bit value as eight little-endian bytes. -/
def toLE8 (x : Nat) : List Nat :=
  toLE4 (x % w32) ++ toLE4 (x / w32)

/-- MD5 padding: 0x80, zeros to 56 mod 64, then the bit length. -/
def md5Pad (msg : List Nat) : List Nat :=
  let len := msg.length
  let zeros := (119 - len % 64) % 64
  msg ++ [0x80] ++ List.replicate zeros 0 ++ toLE8 (len * 8 % (w32 * w32))

/-- Split a byte list into 64-byte chunks. -/
def chunks64 (l : List Nat) : List (List Nat) :=
  if h : l = [] then [] else l.take 64 :: chunks64 (l.drop 64)
termination_by l.length
decreasing_by
  simp [List.length_drop]
  cases l with
  | nil => exact absurd rfl h
  | cons a t => simp

/-- Little-endian 32-bit word g of a 64-byte chunk. -/
def leWord (c : List Nat) (g : Nat) : Nat :=
  c.getD (4 * g) 0 + (c.getD (4 * g + 1) 0) <<< 8 +
    (c.getD (4 * g + 2) 0) <<< 16 + (c.getD (4 * g + 3) 0) <<< 24

/-- One of the 64 MD5 rounds on the state (a, b, c, d). -/
def md5Round (m : Nat → Nat) (st : Nat × Nat × Nat × Nat) (i : Nat) :
    Nat × Nat × Nat × Nat :=
  match st with
  | (a, b, c, d) =>
    let fg : Nat × Nat :=
      if i < 16 then ((b &&& c) ||| (not32 b &&& d), i)
      else if i < 32 then ((d &&& b) ||| (not32 d &&& c), (5 * i + 1) % 16)
      else if i < 48 then (b ^^^ c ^^^ d, (3 * i + 5) % 16)
      else (c ^^^ (b ||| not32 d), 7 * i % 16)
    let tmp := (fg.1 + a + md5K.getD i 0 + m fg.2) % w32
    (d, (b + rotl32 tmp (md5S.getD i 0)) % w32, b, c)

/-- Process one 64-byte chunk and add the result into the running state. -/
def md5ProcessChunk (st : Nat × Nat × Nat × Nat) (chunk : List Nat) :
    Nat × Nat × Nat × Nat :=
  match st, (List.range 64).foldl (md5Round (leWord chunk)) st with
  | (a, b, c, d), (a1, b1, c1, d1) =>
    ((a + a1) % w32, (b + b1) % w32, (c + c1) % w32, (d + d1) % w32)

/-- MD5 digest of a byte list: sixteen bytes, little-endian per word. -/
def md5Digest (msg : List Nat) : List Nat :=
  let st := (chunks64 (md5Pad msg)).foldl md5ProcessChunk
    (0x67452301, 0xefcdab89, 0x98badcfe, 0x10325476)
  toLE4 st.1 ++ toLE4 st.2.1 ++ toLE4 st.2.2.1 ++ toLE4 st.2.2.2

/-- Lower-case hex digit for a value below 16. -/
def hexDigitChar (n : Nat) : Char :=
  if n < 10 then Char.ofNat (48 + n) else Char.ofNat (87 + n)

/-- Two hex digits of a byte, high nibble first. -/
def byteToHex (b : Nat) : List Char :=
  [hexDigitChar (b / 16 % 16), hexDigitChar (b % 16)]

/-- hashlib's hexdigest rendering of a byte list. -/
def hexdigest (bytes : List Nat) : String :=
  ⟨(bytes.map byteToHex).flatten⟩

/-- UTF-8 bytes of one code point (str.encode). -/
def utf8EncodeChar (c : Char) : List Nat :=
  let n := c.toNat
  if n < 128 then [n]
  else if n < 2048 then [192 ||| (n >>> 6), 128 ||| (n &&& 63)]
  else if n < 65536 then
    [224 ||| (n >>> 12), 128 ||| ((n >>> 6) &&& 63), 128 ||| (n &&& 63)]
  else
    [240 ||| (n >>> 18), 128 ||| ((n >>> 12) &&& 63),
     128 ||| ((n >>> 6) &&& 63), 128 ||| (n &&& 63)]

/-- UTF-8 encoding of a string (str.encode). -/
def utf8Encode (s : String) : List Nat :=
  (s.data.map utf8EncodeChar).flatten

/-- generate_unique_id: md5 of the URL, an underscore and the rendered
time.time() value, as a hex digest. The timestamp rendering is the ts
parameter (floats are outside the embedding; only the rendered string
enters the hash). -/
def generate_unique_id (url : String) (ts : String) : String :=
  hexdigest (md5Digest (utf8Encode (url ++ "_" ++ ts)))

/-- A lower-case hex character. -/
def isHexChar (c : Char) : Bool :=
  ("0123456789abcdef".data).contains c

/-! ## Dispatch layer -/

/-- The sender identity fields the handlers read from update.effective_user. -/
structure TUser where
  id : Int
  first_name : String
  last_name : Option String
  username : Option String
deriving DecidableEq

/-- The user_name string handle_url stores with a new row. -/
def userLabel (u : TUser) : String :=
  u.first_name ++ " " ++ pyOrStr u.last_name "" ++ " (@" ++
    pyOrStr u.username "N/A" ++ ")"

/-- Which reply a handler sends, with the data interpolated into it; the
fixed surrounding text is not modelled. -/
inductive Response where
  | openUrl (original_url : String)
  | linkExpired
  | welcome (first_name : String)
  | helpText
  | adminOnlyStats
  | onlyAdminGenerates
  | invalidUrl
  | deepLinkGenerated (original_url deep_link : String)
  | statsReport (s : Stats)
  | ackOnly
  | copiedUrl (url : String)
deriving DecidableEq

/-- The /start handler: with an argument, look the identifier up (counting
the click on success); otherwise the static welcome. -/
def start (user : TUser) (args : List String) (db : List LinkRecord) :
    Response × List LinkRecord :=
  match args with
  | unique_id :: _ =>
    match get_original_url db unique_id with
    | (some original_url, db2) => (.openUrl original_url, db2)
    | (none, db2) => (.linkExpired, db2)
  | [] => (.welcome user.first_name, db)

/-- The /help handler: static text, no store access. -/
def help_command : Response := .helpText

/-- The /stats handler: refuse non-admin senders, otherwise report
get_stats. -/
def stats_command (ADMIN_ID : Int) (user : TUser) (db : List LinkRecord) :
    Response × List LinkRecord :=
  if user.id ≠ ADMIN_ID then (.adminOnlyStats, db)
  else (.statsReport (get_stats db), db)

/-- handle_url: refuse non-admin senders; validate the scheme; then mint an
identifier, store the mapping and answer with the deep link. -/
def handle_url (ADMIN_ID : Int) (bot_username : String) (user : TUser)
    (message_text ts : String) (db : List LinkRecord) :
    Response × List LinkRecord :=
  if user.id ≠ ADMIN_ID then (.onlyAdminGenerates, db)
  else if ¬ (startswith message_text "http://" ||
             startswith message_text "https://") = true then
    (.invalidUrl, db)
  else
    let unique_id := generate_unique_id message_text ts
    let db2 := store_url_mapping db unique_id message_text user.id
      (userLabel user)
    let deep_link := "https://t.me/" ++ bot_username ++ "?start=" ++ unique_id
    (.deepLinkGenerated message_text deep_link, db2)

/-- button_handler: always answer the callback; re-render only payloads
headed by copy_, showing the payload with its first five code points
removed; the store is never touched. The first component is the re-rendered
content, none when only the acknowledgement is sent. -/
def button_handler (payload : String) (db : List LinkRecord) :
    Option String × List LinkRecord :=
  if startswith payload "copy_" then (some (pySliceFrom payload 5), db)
  else (none, db)

/-! ## Operation traces over the store -/

/-- One store operation, as issued by the handlers. -/
inductive StoreOp where
  | create (uid url : String) (user_id : Int) (user_name : String)
  | lookup (uid : String)
  | statsQ
deriving DecidableEq

/-- State effect of one store operation (get_stats only reads). -/
def applyOp (db : List LinkRecord) : StoreOp → List LinkRecord
  | .create uid url i n => store_url_mapping db uid url i n
  | .lookup uid => (get_original_url db uid).2
  | .statsQ => db

/-- Run a sequence of store operations. -/
def runOps (db : List LinkRecord) (ops : List StoreOp) : List LinkRecord :=
  ops.foldl applyOp db

/-- Whether an operation is a lookup of uid that succeeds on this store. -/
def isSuccessfulLookup (db : List LinkRecord) (uid : String) :
    StoreOp → Bool
  | .lookup u => u == uid && hasId db uid
  | _ => false

/-- Number of successful lookups of uid along a trace. -/
def countSuccessfulLookups (db : List LinkRecord) (ops : List StoreOp)
    (uid : String) : Nat :=
  match ops with
  | [] => 0
  | op :: rest =>
    (if isSuccessfulLookup db uid op then 1 else 0) +
      countSuccessfulLookups (applyOp db op) rest uid

/-- click_count of the row found for uid, 0 when no row matches. -/
def clickTotal (db : List LinkRecord) (uid : String) : Nat :=
  ((db.find? (fun r => r.unique_id == uid)).map LinkRecord.click_count).getD 0

/-- How one operation changes one row's click_count: 1 exactly for a lookup
of that row's identifier. -/
def clickDelta (r : LinkRecord) : StoreOp → Nat
  | .lookup u => if r.unique_id == u then 1 else 0
  | _ => 0

/-- Demonstration row for the duplicate-identifier analysis. -/
def dupDemoRow : LinkRecord :=
  { unique_id := "a", original_url := "https://one", click_count := 0,
    user_id := 7, user_name := "Ann" }

/-! ## Helper lemmas -/

theorem unique_id_bumpClick (u : String) (r : LinkRecord) :
    (bumpClick u r).unique_id = r.unique_id := by
  unfold bumpClick
  split <;> rfl

theorem find?_bumpClick (db : List LinkRecord) (u uid : String) :
    (db.map (bumpClick u)).find? (fun r => r.unique_id == uid) =
      (db.find? (fun r => r.unique_id == uid)).map (bumpClick u) := by
  have hp : ((fun r : LinkRecord => r.unique_id == uid) ∘ bumpClick u) =
      (fun r : LinkRecord => r.unique_id == uid) := by
    funext r
    simp [Function.comp, unique_id_bumpClick]
  rw [List.find?_map, hp]

theorem hasId_false_find? {db : List LinkRecord} {uid : String}
    (h : hasId db uid = false) :
    db.find? (fun r => r.unique_id == uid) = none := by
  rw [List.find?_eq_none]
  exact List.any_eq_false.mp h

theorem find?_some_hasId {db : List LinkRecord} {uid : String} {r : LinkRecord}
    (h : db.find? (fun r => r.unique_id == uid) = some r) :
    hasId db uid = true := by
  have hp := List.find?_some h
  have hmem := List.mem_of_find?_eq_some h
  simp only [hasId, List.any_eq_true]
  exact ⟨r, hmem, hp⟩

/-! ## Claim theorems -/

/-- C2: a sender whose identity differs from the configured admin identity
gets the static refusal from both the TextMessage handler and the Stats
handler, and the store is returned unchanged (no write, and the response
carries no store data, so no read either). -/
theorem non_admin_refused_C2 (ADMIN_ID : Int) (bot_username : String)
    (user : TUser) (message_text ts : String) (db : List LinkRecord)
    (h : user.id ≠ ADMIN_ID) :
    handle_url ADMIN_ID bot_username user message_text ts db =
      (.onlyAdminGenerates, db) ∧
    stats_command ADMIN_ID user db = (.adminOnlyStats, db) := by
  constructor <;> simp [handle_url, stats_command, h]

theorem non_admin_refused_C2_witness :
    ((⟨8, "Bob", none, none⟩ : TUser).id ≠ (7 : Int)) ∧
    (handle_url 7 "bot" ⟨8, "Bob", none, none⟩ "https://x" "1.0" [] =
      (.onlyAdminGenerates, []) ∧
     stats_command 7 ⟨8, "Bob", none, none⟩ [] = (.adminOnlyStats, [])) :=
  ⟨by decide,
   non_admin_refused_C2 7 "bot" ⟨8, "Bob", none, none⟩ "https://x" "1.0" []
     (by decide)⟩

/-- C5: on a colliding identifier the insert is rejected (the row is not
replaced) but store_url_mapping swallows the IntegrityError: the store it
hands back is identical to a no-op and the submitted URL is nowhere in the
store, with no error value distinguishing this from success. -/
theorem duplicate_silent_drop_C5 :
    hasId [dupDemoRow] "a" = true ∧
    store_url_mapping [dupDemoRow] "a" "https://two" 7 "Ann" = [dupDemoRow] ∧
    ((store_url_mapping [dupDemoRow] "a" "https://two" 7 "Ann").map
        LinkRecord.original_url).contains "https://two" = false := by
  refine ⟨by decide, ?_, ?_⟩ <;> simp [store_url_mapping, hasId, dupDemoRow]

/-- C7: looking up an identifier with no matching row yields None and the
returned store is exactly the input store; nothing is modified. -/
theorem lookup_notfound_C7 (db : List LinkRecord) (uid : String)
    (h : hasId db uid = false) :
    get_original_url db uid = (none, db) := by
  unfold get_original_url
  rw [hasId_false_find? h]

theorem lookup_notfound_C7_witness :
    hasId [dupDemoRow] "zz" = false ∧
    get_original_url [dupDemoRow] "zz" = (none, [dupDemoRow]) :=
  ⟨by decide, lookup_notfound_C7 [dupDemoRow] "zz" (by decide)⟩

/-- C8: for the admin sender, a body that starts with neither http:// nor
https:// is answered with the validation failure and the store is returned
untouched; the handler result shows no identifier was minted and no create
was issued. -/
theorem invalid_scheme_C8 (ADMIN_ID : Int) (bot_username : String)
    (user : TUser) (message_text ts : String) (db : List LinkRecord)
    (hadmin : user.id = ADMIN_ID)
    (hbad : (startswith message_text "http://" ||
             startswith message_text "https://") = false) :
    handle_url ADMIN_ID bot_username user message_text ts db =
      (.invalidUrl, db) := by
  simp [handle_url, hadmin, hbad]

theorem invalid_scheme_C8_witness :
    ((⟨7, "Ann", none, none⟩ : TUser).id = (7 : Int)) ∧
    (startswith "ftp://example.com" "http://" ||
     startswith "ftp://example.com" "https://") = false ∧
    handle_url 7 "bot" ⟨7, "Ann", none, none⟩ "ftp://example.com" "1.0" [] =
      (.invalidUrl, []) :=
  ⟨rfl, by decide,
   invalid_scheme_C8 7 "bot" ⟨7, "Ann", none, none⟩ "ftp://example.com" "1.0" []
     rfl (by decide)⟩

/-- C10: a callback performs no store operation (the store passes through
unchanged); a payload headed by copy_ re-renders the payload with its first
five code points removed, and any other payload gets only the
acknowledgement. -/
theorem callback_stateless_C10 (payload : String) (db : List LinkRecord) :
    (button_handler payload db).2 = db ∧
    (startswith payload "copy_" = true →
      (button_handler payload db).1 = some (pySliceFrom payload 5)) ∧
    (startswith payload "copy_" = false →
      (button_handler payload db).1 = none) := by
  unfold button_handler
  by_cases hc : startswith payload "copy_" <;> simp [hc]

theorem callback_stateless_C10_witness :
    startswith "copy_https://x" "copy_" = true ∧
    (button_handler "copy_https://x" []).1 = some (pySliceFrom "copy_https://x" 5) ∧
    (button_handler "zzz" []).2 = ([] : List LinkRecord) :=
  ⟨by decide,
   (callback_stateless_C10 "copy_https://x" []).2.1 (by decide),
   (callback_stateless_C10 "zzz" []).1⟩

/-- C1: an admin-submitted body that passes scheme validation and is stored
under a fresh, non-colliding identifier is returned verbatim by a
subsequent lookup of that identifier. -/
theorem round_trip_C1 (ADMIN_ID : Int) (bot_username : String) (user : TUser)
    (message_text ts : String) (db : List LinkRecord)
    (hadmin : user.id = ADMIN_ID)
    (hvalid : (startswith message_text "http://" ||
               startswith message_text "https://") = true)
    (hfresh : hasId db (generate_unique_id message_text ts) = false) :
    (get_original_url
        (handle_url ADMIN_ID bot_username user message_text ts db).2
        (generate_unique_id message_text ts)).1 = some message_text := by
  unfold handle_url
  simp only [hadmin, ne_eq, not_true_eq_false, if_false, hvalid, Bool.not_true,
    ite_false, ite_true, if_true, not_false_eq_true]
  unfold store_url_mapping
  rw [if_neg (by simp [hfresh])]
  unfold get_original_url
  rw [List.find?_append, hasId_false_find? hfresh]
  simp [List.find?]

theorem round_trip_C1_witness :
    ((⟨7, "Ann", none, none⟩ : TUser).id = (7 : Int)) ∧
    (startswith "https://example.com" "http://" ||
     startswith "https://example.com" "https://") = true ∧
    hasId [] (generate_unique_id "https://example.com" "1.0") = false ∧
    (get_original_url
        (handle_url 7 "bot" ⟨7, "Ann", none, none⟩
          "https://example.com" "1.0" []).2
        (generate_unique_id "https://example.com" "1.0")).1 =
      some "https://example.com" :=
  ⟨rfl, by decide, rfl,
   round_trip_C1 7 "bot" ⟨7, "Ann", none, none⟩ "https://example.com" "1.0" []
     rfl (by decide) rfl⟩

theorem length_md5Digest (msg : List Nat) : (md5Digest msg).length = 16 := by
  simp [md5Digest, toLE4]

theorem length_hexdigest (bytes : List Nat) :
    (hexdigest bytes).length = 2 * bytes.length := by
  show ((bytes.map byteToHex).flatten).length = 2 * bytes.length
  induction bytes with
  | nil => rfl
  | cons b t ih =>
    simp only [List.map_cons, List.flatten_cons, List.length_append, ih,
      byteToHex, List.length_cons, List.length_nil, List.length_cons]
    omega

theorem isHexChar_hexDigitChar {m : Nat} (h : m < 16) :
    isHexChar (hexDigitChar m) = true := by
  have hall : ∀ m, m < 16 → isHexChar (hexDigitChar m) = true := by decide
  exact hall m h

theorem all_hex_hexdigest (bytes : List Nat) :
    (hexdigest bytes).data.all isHexChar = true := by
  show ((bytes.map byteToHex).flatten).all isHexChar = true
  induction bytes with
  | nil => rfl
  | cons b t ih =>
    simp only [List.map_cons, List.flatten_cons, List.all_append, ih,
      Bool.and_true, byteToHex, List.all_cons, List.all_nil]
    rw [isHexChar_hexDigitChar (Nat.mod_lt _ (by omega)),
      isHexChar_hexDigitChar (Nat.mod_lt _ (by omega))]
    rfl

/-- C9: the generated identifier is the hex rendering of the 128-bit MD5
digest of the URL joined to the rendered timestamp; it is always a
32-character string of lower-case hexadecimal characters. -/
theorem unique_id_hex_C9 (url ts : String) :
    generate_unique_id url ts =
      hexdigest (md5Digest (utf8Encode (url ++ "_" ++ ts))) ∧
    (generate_unique_id url ts).length = 32 ∧
    (generate_unique_id url ts).data.all isHexChar = true := by
  refine ⟨rfl, ?_, all_hex_hexdigest _⟩
  show (hexdigest (md5Digest (utf8Encode (url ++ "_" ++ ts)))).length = 32
  rw [length_hexdigest, length_md5Digest]

theorem clickTotal_applyOp (db : List LinkRecord) (op : StoreOp) (uid : String) :
    clickTotal (applyOp db op) uid =
      clickTotal db uid + (if isSuccessfulLookup db uid op then 1 else 0) := by
  cases op with
  | statsQ => simp [applyOp, isSuccessfulLookup]
  | create u url i n =>
    simp only [applyOp, isSuccessfulLookup, if_neg, Bool.false_eq_true,
      ite_false, Nat.add_zero, store_url_mapping]
    by_cases hc : hasId db u
    · rw [if_pos hc]
    · rw [if_neg hc]
      unfold clickTotal
      rw [List.find?_append]
      cases hf : db.find? (fun r => r.unique_id == uid) with
      | some r => simp [Option.or]
      | none =>
        cases he : (u == uid) with
        | true => simp [Option.or, List.find?, he]
        | false => simp [Option.or, List.find?, he]
  | lookup u =>
    simp only [applyOp, get_original_url, isSuccessfulLookup]
    cases hf : db.find? (fun r => r.unique_id == u) with
    | none =>
      have hid : hasId db u = false := by
        simp only [hasId, List.any_eq_false]
        exact List.find?_eq_none.mp hf
      by_cases he : u = uid
      · subst he
        simp [hid]
      · have hne : (u == uid) = false := by simp [he]
        simp [hne]
    | some r =>
      by_cases he : u = uid
      · subst he
        have hid : hasId db u = true := find?_some_hasId hf
        have hr : (r.unique_id == u) = true := by
          have hp := List.find?_some hf
          simpa using hp
        simp only [hid, beq_self_eq_true, Bool.and_true, Bool.and_self,
          ite_true, if_pos]
        unfold clickTotal
        rw [find?_bumpClick, hf]
        simp [bumpClick, hr]
      · have hne : (u == uid) = false := by simp [he]
        simp only [hne, Bool.false_and, Bool.false_eq_true, ite_false,
          Nat.add_zero]
        unfold clickTotal
        rw [find?_bumpClick]
        cases hg : db.find? (fun r => r.unique_id == uid) with
        | none => simp
        | some r2 =>
          have hr2 : r2.unique_id = uid := by
            have hp := List.find?_some hg
            simpa using hp
          have hr2u : (r2.unique_id == u) = false := by
            rw [hr2]
            cases hcase : (uid == u) with
            | false => rfl
            | true => exact absurd (beq_iff_eq.mp hcase).symm he
          simp [bumpClick, hr2u]

theorem clickTotal_runOps (ops : List StoreOp) (db : List LinkRecord)
    (uid : String) :
    clickTotal (runOps db ops) uid =
      clickTotal db uid + countSuccessfulLookups db ops uid := by
  induction ops generalizing db with
  | nil => simp [runOps, countSuccessfulLookups]
  | cons op rest ih =>
    have h1 : runOps db (op :: rest) = runOps (applyOp db op) rest := rfl
    rw [h1, ih, clickTotal_applyOp]
    show _ = clickTotal db uid +
      ((if isSuccessfulLookup db uid op then 1 else 0) +
        countSuccessfulLookups (applyOp db op) rest uid)
    omega

/-- C3: a freshly created record starts with click_count 0, and along any
sequence of store operations the click_count found for an identifier grows
by exactly the number of successful lookups of that identifier: one per
successful lookup, none lost, none double-counted. -/
theorem click_count_exact_C3 (db : List LinkRecord) (ops : List StoreOp)
    (uid url : String) (uI : Int) (uN : String)
    (hfresh : hasId db uid = false) :
    clickTotal (store_url_mapping db uid url uI uN) uid = 0 ∧
    clickTotal (runOps db ops) uid =
      clickTotal db uid + countSuccessfulLookups db ops uid := by
  constructor
  · unfold store_url_mapping
    rw [if_neg (by simp [hfresh])]
    unfold clickTotal
    rw [List.find?_append, hasId_false_find? hfresh]
    simp [List.find?]
  · exact clickTotal_runOps ops db uid

theorem click_count_exact_C3_witness :
    hasId [] "u" = false ∧
    (clickTotal (store_url_mapping [] "u" "https://x" 7 "Ann") "u" = 0 ∧
     clickTotal
        (runOps []
          [.create "u" "https://x" 7 "Ann", .lookup "u", .lookup "u",
           .lookup "v"]) "u" =
       clickTotal [] "u" +
         countSuccessfulLookups []
           [.create "u" "https://x" 7 "Ann", .lookup "u", .lookup "u",
            .lookup "v"] "u") :=
  ⟨rfl,
   click_count_exact_C3 []
     [.create "u" "https://x" 7 "Ann", .lookup "u", .lookup "u", .lookup "v"]
     "u" "https://x" 7 "Ann" rfl⟩

/-- C4: every store operation preserves every existing row: the store never
shrinks, a create on a colliding identifier is a no-op leaving the original
row intact, and the row at any position keeps its identifier, URL and
submitter fields, its click_count moving only by clickDelta: up by 1
exactly when the operation is a lookup of that row's identifier
(necessarily successful), else unchanged. -/
theorem store_invariant_C4 (db : List LinkRecord) (op : StoreOp)
    (uid2 url2 : String) (uI2 : Int) (uN2 : String) (i : Nat)
    (r : LinkRecord) (h : db[i]? = some r) :
    db.length ≤ (applyOp db op).length ∧
    (hasId db uid2 = true → applyOp db (.create uid2 url2 uI2 uN2) = db) ∧
    (applyOp db op)[i]? =
      some { r with click_count := r.click_count + clickDelta r op } := by
  have hilt : i < db.length := by
    rcases List.getElem?_eq_some.mp h with ⟨hl, _⟩
    exact hl
  have hmem : r ∈ db := by
    rcases List.getElem?_eq_some.mp h with ⟨hl, he⟩
    exact he ▸ List.getElem_mem hl
  refine ⟨?_, ?_, ?_⟩
  · cases op with
    | statsQ => exact Nat.le_refl _
    | create u url uI uN =>
      simp only [applyOp]
      unfold store_url_mapping
      split
      · exact Nat.le_refl _
      · simp
    | lookup u =>
      simp only [applyOp, get_original_url]
      cases hf : db.find? (fun r => r.unique_id == u) with
      | none => exact Nat.le_refl _
      | some r2 => simp
  · intro hdup
    simp [applyOp, store_url_mapping, hdup]
  · cases op with
    | statsQ =>
      simpa [applyOp, clickDelta] using h
    | create u url uI uN =>
      simp only [applyOp]
      unfold store_url_mapping
      split
      · simpa [clickDelta] using h
      · rw [List.getElem?_append_left hilt]
        simpa [clickDelta] using h
    | lookup u =>
      simp only [applyOp, get_original_url]
      cases hf : db.find? (fun r => r.unique_id == u) with
      | none =>
        have hru : (r.unique_id == u) = false := by
          have hx := List.find?_eq_none.mp hf r hmem
          simpa using hx
        simpa [clickDelta, hru] using h
      | some r2 =>
        rw [List.getElem?_map, h]
        unfold bumpClick clickDelta
        cases hru : (r.unique_id == u) with
        | false =>
          simp [hru]
          intro hx
          exact absurd hx (by simpa using hru)
        | true =>
          simp [hru]
          intro hx
          exact absurd (beq_iff_eq.mp hru) hx

theorem store_invariant_C4_witness :
    ([dupDemoRow][0]? = some dupDemoRow) ∧
    ([dupDemoRow].length ≤ (applyOp [dupDemoRow] (.lookup "a")).length ∧
     (hasId [dupDemoRow] "a" = true →
       applyOp [dupDemoRow] (.create "a" "https://two" 7 "Ann") =
         [dupDemoRow]) ∧
     (applyOp [dupDemoRow] (.lookup "a"))[0]? =
       some { dupDemoRow with
                click_count :=
                  dupDemoRow.click_count +
                    clickDelta dupDemoRow (.lookup "a") }) :=
  ⟨by decide,
   store_invariant_C4 [dupDemoRow] (.lookup "a") "a" "https://two" 7 "Ann" 0
     dupDemoRow (by decide)⟩

theorem clickDescLe_trans (a b c : LinkRecord) (h1 : clickDescLe a b = true)
    (h2 : clickDescLe b c = true) : clickDescLe a c = true := by
  simp only [clickDescLe, decide_eq_true_eq] at *
  omega

theorem clickDescLe_total (a b : LinkRecord) :
    (clickDescLe a b || clickDescLe b a) = true := by
  simp only [clickDescLe, Bool.or_eq_true, decide_eq_true_eq]
  omega

/-- C6: for every store state, get_stats reports the number of rows as
total_urls, the sum of all click counters as total_clicks (0, not NULL, on
an empty store, thanks to the or-0 coercion), and a top list of at most 5
entries that is sorted by click count descending. -/
theorem stats_correct_C6 (db : List LinkRecord) :
    (get_stats db).total_urls = db.length ∧
    (get_stats db).total_clicks = (db.map LinkRecord.click_count).sum ∧
    (get_stats db).top_urls.length ≤ 5 ∧
    List.Pairwise (fun p q : String × Nat => q.2 ≤ p.2)
      (get_stats db).top_urls := by
  refine ⟨rfl, ?_, ?_, ?_⟩
  · cases db with
    | nil => rfl
    | cons a t => rfl
  · simp only [get_stats, List.length_take, List.length_map,
      List.length_mergeSort]
    omega
  · simp only [get_stats]
    apply List.Pairwise.sublist (List.take_sublist 5 _)
    rw [List.pairwise_map]
    have hs := List.sorted_mergeSort clickDescLe_trans clickDescLe_total db
    exact hs.imp (fun hab => by
      simpa [clickDescLe, decide_eq_true_eq] using hab)
